import Mathlib

/-!
Verification of the Session & Token Lifecycle subsystem of the temsaas
backend (src/backend/app/utils/security.py and src/backend/app/routers/auth.py),
shallowly embedded in Lean.

Modelling conventions:
* Time is `Int` (seconds).  Each `datetime.utcnow()` call in the Python source
  is a separate clock reading; every reading is an explicit parameter, passed
  in the order the source performs the readings.
* A JWT on the wire is modelled as its claim set together with the secret it
  was signed with; `jwt.decode` accepts the token iff the signing secret
  equals the verification secret (signature check), then validates `nbf` and
  `exp` the way PyJWT does (nbf before exp; immature iff `nbf > now`,
  expired iff `exp ≤ now` — PyJWT raises `ExpiredSignatureError` when
  `exp <= now - leeway` with leeway 0, per RFC 7519 a token is valid only
  strictly before `exp`).
* The Mongo `sessions` collection is a `List SessionRecord`; `find_one`
  returns the first match, `delete_one` removes the first match, `update_one`
  updates the first match, `insert_one` appends.
* Fallible store writes (`insert_one`, `update_one`) take a Boolean oracle
  saying whether the write succeeds; a failing write raises, modelled as
  `AppErr.storeError` (an exception that is not an `HTTPException`).
-/

/-- An `HTTPException(status_code, detail)` as raised by the FastAPI code. -/
structure HTTPException where
  status_code : Nat
  detail : String
deriving DecidableEq, Repr

/-- An exception escaping a security-layer function: either a FastAPI
`HTTPException`, or an uncaught storage-layer exception (e.g. a pymongo
error), which the route layer would surface as a 500. -/
inductive AppErr where
  | http (e : HTTPException)
  | storeError
deriving DecidableEq, Repr

/-- The claim set of a JWT as built by the source.  `typ` embeds the `"type"`
claim (the token kind, `"access"` or `"refresh"`); optional fields model
claims that a given minting site may simply not include in its payload dict. -/
structure Claims where
  user_id : String
  /-- the `"sub"` claim (subject / email); absent from refresh tokens -/
  sub : Option String
  /-- the `"exp"` claim -/
  exp : Int
  /-- the `"type"` claim: `"access"` or `"refresh"` -/
  typ : String
  /-- the `"invalidate_id"` claim linking the token to its session record -/
  invalidate_id : String
  /-- the `"jti"` claim -/
  jti : Option String
  /-- the `"iat"` claim -/
  iat : Option Int
  /-- the `"nbf"` claim -/
  nbf : Option Int
deriving DecidableEq, Repr

/-- An encoded JWT: its claims plus the secret it was signed with
(`jwt.encode(claims, secret, algorithm)`); the algorithm is fixed
process-wide so it is not modelled. -/
structure JwtToken where
  claims : Claims
  secret : String
deriving DecidableEq, Repr

/-- A document of the `sessions` collection, as inserted by
`create_session_tokens`.  `client_info` is kept opaque. -/
structure SessionRecord where
  invalidate_id : String
  user_id : String
  created_at : Int
  expires_at : Int
  last_used : Int
  is_active : Bool
  ip_address : String
  client_info : String
deriving DecidableEq, Repr

/-- A document of the `users` collection (only the fields the refresh route
reads: `_id`, here `uid`, and `email`). -/
structure UserDoc where
  uid : String
  email : String
deriving DecidableEq, Repr

/-! ## The store adapter: Mongo collection operations -/

/-- `db.sessions.find_one({"invalidate_id": id})`: first matching document. -/
def find_one (sessions : List SessionRecord) (id : String) : Option SessionRecord :=
  sessions.find? (fun r => r.invalidate_id == id)

/-- `db.sessions.insert_one(r)`: append the document. -/
def insert_one (sessions : List SessionRecord) (r : SessionRecord) : List SessionRecord :=
  sessions ++ [r]

/-- `db.sessions.delete_one({"invalidate_id": id})`: remove the first
matching document; removing nothing when no document matches is not an
error. -/
def delete_one : List SessionRecord → String → List SessionRecord
  | [], _ => []
  | r :: rs, id => if r.invalidate_id == id then rs else r :: delete_one rs id

/-- `db.sessions.update_one({"invalidate_id": id}, {"$set": {"last_used": t}})`:
update the first matching document. -/
def update_one_lastUsed : List SessionRecord → String → Int → List SessionRecord
  | [], _, _ => []
  | r :: rs, id, t =>
      if r.invalidate_id == id then { r with last_used := t } :: rs
      else r :: update_one_lastUsed rs id t

/-- Number of session documents carrying a given `invalidate_id`.  The system
generates `invalidate_id` by `uuid.uuid4()`, so reachable stores hold at most
one document per id. -/
def countById (sessions : List SessionRecord) (id : String) : Nat :=
  (sessions.filter (fun r => r.invalidate_id == id)).length

/-! ## The token codec -/

/-- Spec error taxonomy for the codec: `MalformedToken` for signature or
structure problems (PyJWT `InvalidTokenError`, including
`ImmatureSignatureError`), `ExpiredToken` for PyJWT
`ExpiredSignatureError`, `WrongTokenKind` for the `"type"` claim check. -/
inductive DecodeError where
  | malformedToken
  | expiredToken
  | wrongTokenKind
deriving DecidableEq, Repr

/-- PyJWT nbf validation: `ImmatureSignatureError` iff `nbf > now`
(a token with no `nbf` claim is not checked). -/
def nbfViolated (c : Claims) (now : Int) : Prop :=
  match c.nbf with
  | some t => now < t
  | none => False

instance (c : Claims) (now : Int) : Decidable (nbfViolated c now) := by
  unfold nbfViolated
  exact match c.nbf with
  | some _ => inferInstanceAs (Decidable (_ < _))
  | none => inferInstanceAs (Decidable False)

/-- `jwt.decode(token, secret, algorithms=[...])`: verify the signature,
then validate the `nbf` and `exp` claims (in PyJWT's order).  A signature
mismatch or immature token raises `InvalidTokenError` (`malformedToken`);
an expired token raises `ExpiredSignatureError` (`expiredToken`), raised
when `exp <= now - leeway` (leeway 0), so the token is already expired at
`now = exp`. -/
def jwt_decode (token : JwtToken) (secret : String) (now : Int) :
    Except DecodeError Claims :=
  if token.secret ≠ secret then .error .malformedToken
  else if nbfViolated token.claims now then .error .malformedToken
  else if token.claims.exp ≤ now then .error .expiredToken
  else .ok token.claims

/-- The codec-level decode of the spec: `jwt.decode` followed by the
`payload.get("type") != token_type` check performed at the top of
`verify_token`. -/
def token_decode (token : JwtToken) (secret : String) (now : Int)
    (token_type : String) : Except DecodeError Claims :=
  match jwt_decode token secret now with
  | .error e => .error e
  | .ok payload =>
      if payload.typ ≠ token_type then .error .wrongTokenKind
      else .ok payload

/-! ## The session manager -/

/-- `verify_token(token, token_type)` from `utils/security.py`.

`nowDecode` is the clock reading PyJWT takes inside `jwt.decode`; `nowTouch`
is the separate `datetime.utcnow()` reading used for the `last_used` update;
`touchOk` says whether that `update_one` write succeeds.  The jwt errors are
caught and mapped to 401 responses with distinct detail strings; the
`HTTPException`s raised for a wrong token type or a missing session are not
caught by the `except jwt...` clauses and propagate; a storage exception in
`update_one` is caught by nothing and propagates as `storeError`. -/
def verify_token (sessions : List SessionRecord) (secret : String)
    (nowDecode nowTouch : Int) (touchOk : Bool)
    (token : JwtToken) (token_type : String) :
    Except AppErr (Claims × List SessionRecord) :=
  match token_decode token secret nowDecode token_type with
  | .error .expiredToken => .error (.http ⟨401, "Token has expired"⟩)
  | .error .malformedToken => .error (.http ⟨401, "Invalid token"⟩)
  | .error .wrongTokenKind => .error (.http ⟨401, "Invalid token type"⟩)
  | .ok payload =>
      match find_one sessions payload.invalidate_id with
      | none => .error (.http ⟨401, "Invalid session"⟩)
      | some _ =>
          if touchOk then
            .ok (payload, update_one_lastUsed sessions payload.invalidate_id nowTouch)
          else .error .storeError

/-- `invalidate_session(invalidate_id)` from `utils/security.py`:
one `delete_one` on the sessions collection. -/
def invalidate_session (sessions : List SessionRecord) (invalidate_id : String) :
    List SessionRecord :=
  delete_one sessions invalidate_id

/-- `create_session_tokens(user_id, email, request)` from `utils/security.py`.

The six `datetime.utcnow()` readings of the source are the parameters
`t0 … t5`, in reading order: `t0` the base of `access_expires`, `t1` the
`iat` claim, `t2` the `nbf` claim, `t3` the base of `refresh_expires`,
`t4` `created_at`, `t5` `last_used`.  `invalidate_id` and `jti` are the two
`uuid.uuid4()` outputs; `insertOk` says whether `insert_one` succeeds
(a failing insert raises and no token is returned). -/
def create_session_tokens (sessions : List SessionRecord)
    (user_id email secret : String) (invalidate_id jti : String)
    (t0 t1 t2 t3 t4 t5 : Int) (ip ua : String) (insertOk : Bool) :
    Except AppErr (JwtToken × JwtToken × List SessionRecord) :=
  let access_expires := t0 + 3600
  let access_tok : JwtToken :=
    ⟨{ user_id := user_id, sub := some email, exp := access_expires,
       typ := "access", invalidate_id := invalidate_id, jti := some jti,
       iat := some t1, nbf := some t2 }, secret⟩
  let refresh_expires := t3 + 2592000
  let refresh_tok : JwtToken :=
    ⟨{ user_id := user_id, sub := none, exp := refresh_expires,
       typ := "refresh", invalidate_id := invalidate_id, jti := none,
       iat := none, nbf := none }, secret⟩
  let session_data : SessionRecord :=
    { invalidate_id := invalidate_id, user_id := user_id, created_at := t4,
      expires_at := refresh_expires, last_used := t5, is_active := true,
      ip_address := ip, client_info := ua }
  if insertOk then .ok (access_tok, refresh_tok, insert_one sessions session_data)
  else .error .storeError

/-- The `refresh_token` route of `routers/auth.py` (`POST /sessions/refresh`).

Returns the pair of tokens that `set_auth_cookies` writes (the newly minted
access token and the presented refresh token) together with the updated
sessions collection.  Everything raised inside the `try` block — the 401s of
`verify_token`, a storage exception from the `last_used` touch, and the 404
for a missing user — is caught by `except Exception` and re-raised as
`401 "Invalid refresh token"`.  `tExp` is the `datetime.utcnow()` reading
that bases the fresh access token's expiry. -/
def refresh_token (sessions : List SessionRecord) (users : List UserDoc)
    (secret : String) (nowDecode nowTouch tExp : Int) (touchOk : Bool)
    (cookie_refresh : Option JwtToken) :
    Except HTTPException (JwtToken × JwtToken × List SessionRecord) :=
  match cookie_refresh with
  | none => .error ⟨401, "No refresh token"⟩
  | some refresh_tok =>
      match verify_token sessions secret nowDecode nowTouch touchOk refresh_tok "refresh" with
      | .error _ => .error ⟨401, "Invalid refresh token"⟩
      | .ok (payload, sessions2) =>
          match users.find? (fun u => u.uid == payload.user_id) with
          | none => .error ⟨401, "Invalid refresh token"⟩
          | some user =>
              let access_tok : JwtToken :=
                ⟨{ user_id := user.uid, sub := some user.email,
                   exp := tExp + 3600, typ := "access",
                   invalidate_id := payload.invalidate_id, jti := none,
                   iat := none, nbf := none }, secret⟩
              .ok (access_tok, refresh_tok, sessions2)

/-- `get_current_user` from `utils/security.py`: read the access-token
cookie, run `verify_token(token, "access")`, return `payload.get("sub")`. -/
def get_current_user (sessions : List SessionRecord) (secret : String)
    (nowDecode nowTouch : Int) (touchOk : Bool)
    (cookie_access : Option JwtToken) :
    Except AppErr (Option String × List SessionRecord) :=
  match cookie_access with
  | none => .error (.http ⟨401, "Not authenticated"⟩)
  | some tok =>
      match verify_token sessions secret nowDecode nowTouch touchOk tok "access" with
      | .error e => .error e
      | .ok (payload, sessions2) => .ok (payload.sub, sessions2)

/-! ## Result projections used to state concrete evaluations -/

/-- Claims of the access token of a successful `create_session_tokens`. -/
def resultAccessClaims :
    Except AppErr (JwtToken × JwtToken × List SessionRecord) → Option Claims
  | .ok (a, _, _) => some a.claims
  | .error _ => none

/-- Claims of the refresh token of a successful `create_session_tokens`. -/
def resultRefreshClaims :
    Except AppErr (JwtToken × JwtToken × List SessionRecord) → Option Claims
  | .ok (_, r, _) => some r.claims
  | .error _ => none

/-- Sessions collection after a successful `create_session_tokens`. -/
def resultSessions :
    Except AppErr (JwtToken × JwtToken × List SessionRecord) →
      Option (List SessionRecord)
  | .ok (_, _, s) => some s
  | .error _ => none

/-! ## Fixtures for concrete evaluations -/

/-- The session record inserted by
`create_session_tokens [] "u1" "a@x.com" "s" "i1" "j1" 0 0 0 0 0 0 "203.0.113.5" "ua" true`. -/
def sampleSession : SessionRecord :=
  { invalidate_id := "i1", user_id := "u1", created_at := 0,
    expires_at := 2592000, last_used := 0, is_active := true,
    ip_address := "203.0.113.5", client_info := "ua" }

/-- The access token minted by that same call. -/
def sampleAccess : JwtToken :=
  ⟨{ user_id := "u1", sub := some "a@x.com", exp := 3600, typ := "access",
     invalidate_id := "i1", jti := some "j1", iat := some 0, nbf := some 0 }, "s"⟩

/-- The refresh token minted by that same call. -/
def sampleRefresh : JwtToken :=
  ⟨{ user_id := "u1", sub := none, exp := 2592000, typ := "refresh",
     invalidate_id := "i1", jti := none, iat := none, nbf := none }, "s"⟩

/-- The matching `users` document. -/
def sampleUser : UserDoc := ⟨"u1", "a@x.com"⟩

/-! ## Store-adapter lemmas -/

theorem countById_cons (r : SessionRecord) (rs : List SessionRecord) (id : String) :
    countById (r :: rs) id =
      (if r.invalidate_id = id then 1 else 0) + countById rs id := by
  by_cases hr : r.invalidate_id = id <;>
    simp [countById, List.filter_cons, hr, Nat.add_comm]

theorem find?_eq_none_of_countById_zero (l : List SessionRecord) (id : String)
    (h : countById l id = 0) :
    List.find? (fun r => r.invalidate_id == id) l = none := by
  induction l with
  | nil => rfl
  | cons r rs ih =>
      have hc := countById_cons r rs id
      by_cases hr : r.invalidate_id = id
      · rw [if_pos hr] at hc
        omega
      · rw [if_neg hr] at hc
        have hb : (r.invalidate_id == id) = false := beq_eq_false_iff_ne.mpr hr
        simp only [List.find?, hb]
        exact ih (by omega)

theorem delete_one_eq_self_of_countById_zero (l : List SessionRecord) (id : String)
    (h : countById l id = 0) : delete_one l id = l := by
  induction l with
  | nil => rfl
  | cons r rs ih =>
      have hc := countById_cons r rs id
      by_cases hr : r.invalidate_id = id
      · rw [if_pos hr] at hc
        omega
      · rw [if_neg hr] at hc
        have hb : (r.invalidate_id == id) = false := beq_eq_false_iff_ne.mpr hr
        have h' : countById rs id = 0 := by omega
        simp [delete_one, hb, ih h']

theorem countById_delete_one (l : List SessionRecord) (id : String)
    (h : countById l id ≤ 1) : countById (delete_one l id) id = 0 := by
  induction l with
  | nil => rfl
  | cons r rs ih =>
      have hc := countById_cons r rs id
      by_cases hr : r.invalidate_id = id
      · rw [if_pos hr] at hc
        have hb : (r.invalidate_id == id) = true := beq_iff_eq.mpr hr
        have h0 : countById rs id = 0 := by omega
        simp [delete_one, hb, h0]
      · rw [if_neg hr] at hc
        have hb : (r.invalidate_id == id) = false := beq_eq_false_iff_ne.mpr hr
        have h' : countById rs id ≤ 1 := by omega
        simp [delete_one, hb, countById_cons, hr, ih h']

theorem find_one_delete_one (l : List SessionRecord) (id : String)
    (h : countById l id ≤ 1) :
    find_one (delete_one l id) id = none :=
  find?_eq_none_of_countById_zero _ id (countById_delete_one l id h)

/-! ## Codec inversion and construction lemmas -/

theorem jwt_decode_ok_inv (tok : JwtToken) (secret : String) (now : Int) (c : Claims)
    (h : jwt_decode tok secret now = .ok c) :
    c = tok.claims ∧ tok.secret = secret ∧
      ¬ nbfViolated tok.claims now ∧ ¬ tok.claims.exp ≤ now := by
  unfold jwt_decode at h
  split at h
  · exact Except.noConfusion h
  next h1 =>
    split at h
    · exact Except.noConfusion h
    next h2 =>
      split at h
      · exact Except.noConfusion h
      next h3 =>
        injection h with h
        exact ⟨h.symm, not_not.mp h1, h2, h3⟩

theorem token_decode_ok_inv (tok : JwtToken) (secret : String) (now : Int)
    (ty : String) (c : Claims) (h : token_decode tok secret now ty = .ok c) :
    c = tok.claims ∧ tok.claims.typ = ty := by
  unfold token_decode at h
  cases hd : jwt_decode tok secret now with
  | error e => rw [hd] at h; exact Except.noConfusion h
  | ok p =>
      rw [hd] at h
      obtain ⟨hp, -, -, -⟩ := jwt_decode_ok_inv tok secret now p hd
      subst hp
      replace h : (if tok.claims.typ ≠ ty then Except.error DecodeError.wrongTokenKind
          else Except.ok tok.claims) = Except.ok c := h
      split at h
      · exact Except.noConfusion h
      next hty =>
        injection h with h
        exact ⟨h.symm, not_not.mp hty⟩

theorem token_decode_ok_of (tok : JwtToken) (secret : String) (now : Int)
    (ty : String) (hsec : tok.secret = secret)
    (hnbf : ¬ nbfViolated tok.claims now) (hexp : ¬ tok.claims.exp ≤ now)
    (hty : tok.claims.typ = ty) :
    token_decode tok secret now ty = .ok tok.claims := by
  simp [token_decode, jwt_decode, hsec, hnbf, hexp, hty]

theorem verify_token_no_session (sessions : List SessionRecord) (secret : String)
    (nd nt : Int) (tOk : Bool) (tok : JwtToken) (ty : String)
    (hdec : token_decode tok secret nd ty = .ok tok.claims)
    (hfind : find_one sessions tok.claims.invalidate_id = none) :
    verify_token sessions secret nd nt tOk tok ty
      = .error (.http ⟨401, "Invalid session"⟩) := by
  simp only [verify_token, hdec, hfind]

theorem getLast?_append_singleton {α : Type} (l : List α) (x : α) :
    (l ++ [x]).getLast? = some x := by
  rw [List.getLast?_append_cons]
  rfl

/-! ## Inversion lemmas for the two token-minting operations -/

theorem create_session_tokens_ok_inv
    (sessions s2 : List SessionRecord) (user_id email secret iid jti : String)
    (t0 t1 t2 t3 t4 t5 : Int) (ip ua : String) (insertOk : Bool) (a r : JwtToken)
    (h : create_session_tokens sessions user_id email secret iid jti
        t0 t1 t2 t3 t4 t5 ip ua insertOk = .ok (a, r, s2)) :
    a = ⟨{ user_id := user_id, sub := some email, exp := t0 + 3600,
           typ := "access", invalidate_id := iid, jti := some jti,
           iat := some t1, nbf := some t2 }, secret⟩ ∧
    r = ⟨{ user_id := user_id, sub := none, exp := t3 + 2592000,
           typ := "refresh", invalidate_id := iid, jti := none,
           iat := none, nbf := none }, secret⟩ ∧
    s2 = sessions ++ [{ invalidate_id := iid, user_id := user_id,
                        created_at := t4, expires_at := t3 + 2592000,
                        last_used := t5, is_active := true,
                        ip_address := ip, client_info := ua }] := by
  cases insertOk with
  | false => exact Except.noConfusion h
  | true =>
      injection h with h
      injection h with hA h
      injection h with hR hS
      exact ⟨hA.symm, hR.symm, hS.symm⟩

theorem verify_token_ok_inv (sessions : List SessionRecord) (secret : String)
    (nd nt : Int) (tOk : Bool) (tok : JwtToken) (ty : String)
    (payload : Claims) (s2 : List SessionRecord)
    (h : verify_token sessions secret nd nt tOk tok ty = .ok (payload, s2)) :
    payload = tok.claims ∧ tok.claims.typ = ty ∧ tOk = true ∧
      s2 = update_one_lastUsed sessions tok.claims.invalidate_id nt := by
  unfold verify_token at h
  cases hdc : token_decode tok secret nd ty with
  | error e => rw [hdc] at h; cases e <;> exact Except.noConfusion h
  | ok c =>
      rw [hdc] at h
      obtain ⟨hc, hty⟩ := token_decode_ok_inv tok secret nd ty c hdc
      subst hc
      replace h : (match find_one sessions tok.claims.invalidate_id with
          | none => Except.error (AppErr.http ⟨401, "Invalid session"⟩)
          | some _ =>
              if tOk = true then
                Except.ok (tok.claims,
                  update_one_lastUsed sessions tok.claims.invalidate_id nt)
              else Except.error AppErr.storeError)
          = Except.ok (payload, s2) := h
      cases hf : find_one sessions tok.claims.invalidate_id with
      | none => rw [hf] at h; exact Except.noConfusion h
      | some rec =>
          rw [hf] at h
          cases tOk with
          | false => exact Except.noConfusion h
          | true =>
              injection h with h
              injection h with hp hs
              exact ⟨hp.symm, hty, rfl, hs.symm⟩

theorem refresh_token_ok_inv (sessions s2 : List SessionRecord)
    (users : List UserDoc) (secret : String) (nd nt tE : Int) (tOk : Bool)
    (rtok a r : JwtToken)
    (h : refresh_token sessions users secret nd nt tE tOk (some rtok)
        = .ok (a, r, s2)) :
    r = rtok ∧ a.claims.invalidate_id = rtok.claims.invalidate_id ∧
      a.claims.exp = tE + 3600 ∧ a.claims.typ = "access" ∧
      a.claims.iat = none ∧ a.claims.nbf = none ∧
      (a.claims.sub).isSome = true := by
  simp only [refresh_token] at h
  cases hv : verify_token sessions secret nd nt tOk rtok "refresh" with
  | error e => rw [hv] at h; exact Except.noConfusion h
  | ok pr =>
      obtain ⟨payload, sess2⟩ := pr
      rw [hv] at h
      obtain ⟨hpay, -, -, -⟩ :=
        verify_token_ok_inv sessions secret nd nt tOk rtok "refresh" payload sess2 hv
      subst hpay
      replace h : (match users.find? (fun u => u.uid == rtok.claims.user_id) with
          | none => Except.error (HTTPException.mk 401 "Invalid refresh token")
          | some user =>
              Except.ok (JwtToken.mk
                { user_id := user.uid, sub := some user.email,
                  exp := tE + 3600, typ := "access",
                  invalidate_id := rtok.claims.invalidate_id, jti := none,
                  iat := none, nbf := none } secret, rtok, sess2))
          = Except.ok (a, r, s2) := h
      cases hu : users.find? (fun u => u.uid == rtok.claims.user_id) with
      | none => rw [hu] at h; exact Except.noConfusion h
      | some user =>
          rw [hu] at h
          injection h with h
          injection h with hA h
          injection h with hR hS
          subst hA
          subst hR
          exact ⟨rfl, rfl, rfl, rfl, rfl, rfl, rfl⟩

/-! ## Claim theorems -/

/-- C1: after `invalidate_session(id)` has deleted the session record, a
subsequent `verify_token` (the Authenticate path) on an access token that
carries that invalidation id fails with HTTP 401 ("Invalid session"), and a
subsequent refresh-route call on a refresh token carrying that id fails with
HTTP 401 ("Invalid refresh token") — even though both tokens have a valid
signature and an unexpired embedded expiry.  The store is assumed to hold at
most one record per invalidation id, as guaranteed by `uuid4` generation. -/
theorem invalidated_session_rejects_both_tokens
    (sessions : List SessionRecord) (users : List UserDoc)
    (secret sid : String) (atok rtok : JwtToken)
    (nd nt nd2 nt2 tE : Int) (tOk tOk2 : Bool)
    (hcount : countById sessions sid ≤ 1)
    (haSec : atok.secret = secret) (haId : atok.claims.invalidate_id = sid)
    (haNbf : ¬ nbfViolated atok.claims nd) (haExp : ¬ atok.claims.exp ≤ nd)
    (haTy : atok.claims.typ = "access")
    (hrSec : rtok.secret = secret) (hrId : rtok.claims.invalidate_id = sid)
    (hrNbf : ¬ nbfViolated rtok.claims nd2) (hrExp : ¬ rtok.claims.exp ≤ nd2)
    (hrTy : rtok.claims.typ = "refresh") :
    verify_token (invalidate_session sessions sid) secret nd nt tOk atok "access"
        = .error (.http ⟨401, "Invalid session"⟩) ∧
    refresh_token (invalidate_session sessions sid) users secret nd2 nt2 tE tOk2
        (some rtok) = .error ⟨401, "Invalid refresh token"⟩ := by
  have hfindA :
      find_one (invalidate_session sessions sid) atok.claims.invalidate_id
        = none := by
    rw [haId]; exact find_one_delete_one sessions sid hcount
  have hfindR :
      find_one (invalidate_session sessions sid) rtok.claims.invalidate_id
        = none := by
    rw [hrId]; exact find_one_delete_one sessions sid hcount
  have hva := verify_token_no_session (invalidate_session sessions sid) secret
    nd nt tOk atok "access"
    (token_decode_ok_of atok secret nd "access" haSec haNbf haExp haTy) hfindA
  have hvr := verify_token_no_session (invalidate_session sessions sid) secret
    nd2 nt2 tOk2 rtok "refresh"
    (token_decode_ok_of rtok secret nd2 "refresh" hrSec hrNbf hrExp hrTy) hfindR
  refine ⟨hva, ?_⟩
  simp only [refresh_token, hvr]

/-- Witness for C1 at a concrete store, token pair and clock. -/
theorem invalidated_session_rejects_both_tokens_witness :
    verify_token (invalidate_session [sampleSession] "i1") "s" 10 11 true
        sampleAccess "access" = .error (.http ⟨401, "Invalid session"⟩) ∧
    refresh_token (invalidate_session [sampleSession] "i1") [sampleUser] "s"
        12 13 14 true (some sampleRefresh)
      = .error ⟨401, "Invalid refresh token"⟩ :=
  invalidated_session_rejects_both_tokens [sampleSession] [sampleUser] "s" "i1"
    sampleAccess sampleRefresh 10 11 12 13 14 true true (by decide) rfl rfl
    (by decide) (by decide) rfl rfl rfl (by decide) (by decide) rfl

/-- C3: `create_session_tokens` is atomic from the caller's point of view:
either it returns both an access token and a refresh token and exactly one
session record has been appended to the store, or the insert fails, the
exception propagates (`storeError`, surfaced as the operation's failure) and
no token is issued to the caller. -/
theorem create_session_tokens_atomic
    (sessions : List SessionRecord) (user_id email secret iid jti : String)
    (t0 t1 t2 t3 t4 t5 : Int) (ip ua : String) (insertOk : Bool) :
    (∃ atok rtok rec,
        create_session_tokens sessions user_id email secret iid jti
            t0 t1 t2 t3 t4 t5 ip ua insertOk
          = .ok (atok, rtok, sessions ++ [rec]) ∧
        atok.claims.typ = "access" ∧ rtok.claims.typ = "refresh") ∨
    create_session_tokens sessions user_id email secret iid jti
        t0 t1 t2 t3 t4 t5 ip ua insertOk = .error .storeError := by
  cases insertOk with
  | false => right; rfl
  | true => left; exact ⟨_, _, _, rfl, rfl, rfl⟩

/-- C7: `invalidate_session` is idempotent.  After one call the store holds
no record for the id, so the second call deletes a non-existent id: it
returns normally (deletion is total — a miss is not an error) and leaves the
store exactly as the single call did. -/
theorem invalidate_session_idempotent (sessions : List SessionRecord)
    (id : String) (hcount : countById sessions id ≤ 1) :
    countById (invalidate_session sessions id) id = 0 ∧
    invalidate_session (invalidate_session sessions id) id
      = invalidate_session sessions id := by
  have h0 := countById_delete_one sessions id hcount
  exact ⟨h0, delete_one_eq_self_of_countById_zero _ id h0⟩

/-- Witness for C7 on a concrete one-record store. -/
theorem invalidate_session_idempotent_witness :
    countById (invalidate_session [sampleSession] "i1") "i1" = 0 ∧
    invalidate_session (invalidate_session [sampleSession] "i1") "i1"
      = invalidate_session [sampleSession] "i1" :=
  invalidate_session_idempotent [sampleSession] "i1" (by decide)

/-- C2 counterexample: the claim that all Authenticate failures are
observably identical is false.  All four failure modes of `verify_token`
carry status 401, but the `HTTPException` details differ ("Token has
expired", "Invalid token", "Invalid token type", "Invalid session"), so two
runs failing for different reasons produce different results at the
function's boundary and the caller can tell which check failed. -/
theorem auth_failure_details_distinguish_cause :
    verify_token [sampleSession] "s" 7200 7300 true
        ⟨{ user_id := "u1", sub := some "a@x.com", exp := 3600,
           typ := "access", invalidate_id := "i1", jti := none,
           iat := none, nbf := none }, "s"⟩ "access"
      = .error (.http ⟨401, "Token has expired"⟩) ∧
    verify_token [sampleSession] "s" 10 20 true
        ⟨{ user_id := "u1", sub := some "a@x.com", exp := 3600,
           typ := "access", invalidate_id := "i1", jti := none,
           iat := none, nbf := none }, "other"⟩ "access"
      = .error (.http ⟨401, "Invalid token"⟩) ∧
    verify_token [sampleSession] "s" 10 20 true sampleRefresh "access"
      = .error (.http ⟨401, "Invalid token type"⟩) ∧
    verify_token [] "s" 10 20 true sampleAccess "access"
      = .error (.http ⟨401, "Invalid session"⟩) ∧
    HTTPException.mk 401 "Token has expired" ≠ HTTPException.mk 401 "Invalid session" :=
  ⟨rfl, rfl, rfl, rfl, by decide⟩

/-- C2 amended: every authentication-path failure that `verify_token`
surfaces as an `HTTPException` carries the uniform status code 401
(`Unauthenticated`), but its detail string is one of four cause-specific
messages, so the failure cause remains distinguishable from the body. -/
theorem verify_token_http_failures_all_401 (sessions : List SessionRecord)
    (secret : String) (nd nt : Int) (tOk : Bool) (tok : JwtToken) (ty : String)
    (e : HTTPException)
    (h : verify_token sessions secret nd nt tOk tok ty = .error (.http e)) :
    e.status_code = 401 ∧
      (e.detail = "Token has expired" ∨ e.detail = "Invalid token" ∨
        e.detail = "Invalid token type" ∨ e.detail = "Invalid session") := by
  unfold verify_token at h
  split at h
  · injection h with h
    injection h with h
    subst h
    exact ⟨rfl, Or.inl rfl⟩
  · injection h with h
    injection h with h
    subst h
    exact ⟨rfl, Or.inr (Or.inl rfl)⟩
  · injection h with h
    injection h with h
    subst h
    exact ⟨rfl, Or.inr (Or.inr (Or.inl rfl))⟩
  · split at h
    · injection h with h
      injection h with h
      subst h
      exact ⟨rfl, Or.inr (Or.inr (Or.inr rfl))⟩
    · split at h
      · exact Except.noConfusion h
      · injection h with h
        exact AppErr.noConfusion h

/-- Witness for the amended C2 at the missing-session failure. -/
theorem verify_token_http_failures_all_401_witness :
    (HTTPException.mk 401 "Invalid session").status_code = 401 ∧
      ((HTTPException.mk 401 "Invalid session").detail = "Token has expired" ∨
        (HTTPException.mk 401 "Invalid session").detail = "Invalid token" ∨
        (HTTPException.mk 401 "Invalid session").detail = "Invalid token type" ∨
        (HTTPException.mk 401 "Invalid session").detail = "Invalid session") :=
  verify_token_http_failures_all_401 [] "s" 10 20 true sampleAccess "access"
    ⟨401, "Invalid session"⟩ rfl

/-- C5 counterexample: decode does not fail with `ExpiredToken` whenever the
current time is past `expires_at`, nor with `WrongTokenKind` whenever the
kind mismatches: a token signed with a different secret whose expiry has
passed and whose kind is "refresh", decoded expecting "access", fails with
`MalformedToken` (PyJWT verifies the signature before any claim, and the
kind check runs only after a successful `jwt.decode`). -/
theorem decode_wrong_secret_expired_is_malformed :
    token_decode
        ⟨{ user_id := "u1", sub := none, exp := 0, typ := "refresh",
           invalidate_id := "i1", jti := none, iat := none, nbf := none },
         "other"⟩ "s" 100 "access"
      = .error .malformedToken ∧
    (0 : Int) < 100 ∧
    ("refresh" : String) ≠ "access" ∧
    DecodeError.malformedToken ≠ DecodeError.expiredToken ∧
    DecodeError.malformedToken ≠ DecodeError.wrongTokenKind :=
  ⟨rfl, by decide, by decide, by decide, by decide⟩

/-- C5 amended: the precise decode behaviour, with PyJWT's check priority
made explicit — `MalformedToken` iff the signature is invalid or the token
is immature (`nbf` in the future); `ExpiredToken` iff the signature is valid
and the current time is at or past `expires_at` (PyJWT raises
`ExpiredSignatureError` when `exp <= now - leeway`, leeway 0: per RFC 7519 a
token is valid only strictly before `exp`); `WrongTokenKind` iff the
signature is valid, the token unexpired, and the `"type"` claim differs from
the expected kind; success otherwise, and a successfully decoded token
always has the expected kind, so a refresh token is never accepted where
kind "access" is expected and vice versa.  In particular a token signed with
a different secret is never accepted. -/
theorem token_decode_error_conditions (tok : JwtToken) (secret expected : String)
    (now : Int) :
    (token_decode tok secret now expected = .error .malformedToken ↔
        tok.secret ≠ secret ∨ nbfViolated tok.claims now) ∧
    (token_decode tok secret now expected = .error .expiredToken ↔
        tok.secret = secret ∧ ¬ nbfViolated tok.claims now ∧
          tok.claims.exp ≤ now) ∧
    (token_decode tok secret now expected = .error .wrongTokenKind ↔
        tok.secret = secret ∧ ¬ nbfViolated tok.claims now ∧
          ¬ tok.claims.exp ≤ now ∧ tok.claims.typ ≠ expected) ∧
    (token_decode tok secret now expected = .ok tok.claims ↔
        tok.secret = secret ∧ ¬ nbfViolated tok.claims now ∧
          ¬ tok.claims.exp ≤ now ∧ tok.claims.typ = expected) ∧
    (∀ c : Claims, token_decode tok secret now expected = .ok c →
        c.typ = expected ∧ c = tok.claims) := by
  by_cases h1 : tok.secret = secret
  · by_cases h2 : nbfViolated tok.claims now
    · simp [token_decode, jwt_decode, h1, h2]
    · by_cases h3 : tok.claims.exp ≤ now
      · simp [token_decode, jwt_decode, h1, h2, h3]
      · by_cases h4 : tok.claims.typ = expected
        · simp [token_decode, jwt_decode, h1, h2, h3, h4]
        · simp [token_decode, jwt_decode, h1, h2, h3, h4]
  · simp [token_decode, jwt_decode, h1]

/-- Witness for the amended C5: a concrete successful decode has the
expected kind. -/
theorem token_decode_error_conditions_witness :
    sampleAccess.claims.typ = "access" ∧
      sampleAccess.claims = sampleAccess.claims :=
  (token_decode_error_conditions sampleAccess "s" "access" 10).2.2.2.2
    sampleAccess.claims rfl

/-- C6 counterexample: the `last_used` touch is not best-effort.  On a store
whose `update_one` raises, `verify_token` on a valid unexpired access token
whose session record exists fails with the propagated storage exception
instead of succeeding; the identical call with a healthy store succeeds and
returns the payload.  (In the source the `update_one` call sits inside the
`try` block whose `except` clauses catch only jwt errors, so a storage
exception aborts authentication.) -/
theorem touch_failure_blocks_authentication :
    verify_token [sampleSession] "s" 10 11 false sampleAccess "access"
      = .error .storeError ∧
    verify_token [sampleSession] "s" 10 11 true sampleAccess "access"
      = .ok (sampleAccess.claims, [{ sampleSession with last_used := 11 }]) :=
  ⟨rfl, rfl⟩

/-- C6 amended: a failure of the `last_used` update propagates out of
`verify_token` and blocks authentication — whenever the token decodes as the
expected kind and the session record exists but the touch write fails, the
call errors with the storage exception rather than returning the subject. -/
theorem touch_failure_propagates (sessions : List SessionRecord)
    (secret : String) (nd nt : Int) (tok : JwtToken) (ty : String)
    (rec : SessionRecord)
    (hdec : token_decode tok secret nd ty = .ok tok.claims)
    (hfind : find_one sessions tok.claims.invalidate_id = some rec) :
    verify_token sessions secret nd nt false tok ty = .error .storeError := by
  simp [verify_token, hdec, hfind]

/-- Witness for the amended C6 on a concrete store and token. -/
theorem touch_failure_propagates_witness :
    verify_token [sampleSession] "s" 20 21 false sampleAccess "access"
      = .error .storeError :=
  touch_failure_propagates [sampleSession] "s" 20 21 sampleAccess "access"
    sampleSession rfl rfl

/-- Access token minted by the first sample refresh call (expiry reading 2). -/
def refreshedAccess1 : JwtToken :=
  ⟨{ user_id := "u1", sub := some "a@x.com", exp := 3602, typ := "access",
     invalidate_id := "i1", jti := none, iat := none, nbf := none }, "s"⟩

/-- Access token minted by the second sample refresh call (expiry reading 5). -/
def refreshedAccess2 : JwtToken :=
  ⟨{ user_id := "u1", sub := some "a@x.com", exp := 3605, typ := "access",
     invalidate_id := "i1", jti := none, iat := none, nbf := none }, "s"⟩

/-- C4: the refresh route never changes the invalidation id — the minted
access token carries the presented refresh token's `invalidate_id` and a
fresh 1-hour expiry, and the refresh token itself is set back in the cookie
unchanged (not rotated).  Two successive refreshes of the same refresh token
whose expiry-clock readings differ yield access tokens with identical
`invalidate_id` but distinct `expires_at`. -/
theorem refresh_does_not_rotate
    (sessions s1 s2 : List SessionRecord) (users : List UserDoc)
    (secret : String) (nd1 nt1 tE1 nd2 nt2 tE2 : Int) (tOk1 tOk2 : Bool)
    (rtok a1 r1 a2 r2 : JwtToken)
    (h1 : refresh_token sessions users secret nd1 nt1 tE1 tOk1 (some rtok)
        = .ok (a1, r1, s1))
    (h2 : refresh_token s1 users secret nd2 nt2 tE2 tOk2 (some rtok)
        = .ok (a2, r2, s2))
    (hne : tE1 ≠ tE2) :
    a1.claims.invalidate_id = rtok.claims.invalidate_id ∧
    a2.claims.invalidate_id = rtok.claims.invalidate_id ∧
    a1.claims.typ = "access" ∧ a2.claims.typ = "access" ∧
    r1 = rtok ∧ r2 = rtok ∧
    a1.claims.exp = tE1 + 3600 ∧ a2.claims.exp = tE2 + 3600 ∧
    a1.claims.exp ≠ a2.claims.exp := by
  obtain ⟨hr1, hid1, hexp1, hty1, -, -, -⟩ :=
    refresh_token_ok_inv sessions s1 users secret nd1 nt1 tE1 tOk1 rtok a1 r1 h1
  obtain ⟨hr2, hid2, hexp2, hty2, -, -, -⟩ :=
    refresh_token_ok_inv s1 s2 users secret nd2 nt2 tE2 tOk2 rtok a2 r2 h2
  refine ⟨hid1, hid2, hty1, hty2, hr1, hr2, hexp1, hexp2, ?_⟩
  rw [hexp1, hexp2]
  intro hc
  exact hne (by omega)

/-- Witness for C4: two concrete successive refreshes at expiry readings
2 and 5. -/
theorem refresh_does_not_rotate_witness :
    refreshedAccess1.claims.invalidate_id = sampleRefresh.claims.invalidate_id ∧
    refreshedAccess2.claims.invalidate_id = sampleRefresh.claims.invalidate_id ∧
    refreshedAccess1.claims.typ = "access" ∧
    refreshedAccess2.claims.typ = "access" ∧
    sampleRefresh = sampleRefresh ∧ sampleRefresh = sampleRefresh ∧
    refreshedAccess1.claims.exp = 2 + 3600 ∧
    refreshedAccess2.claims.exp = 5 + 3600 ∧
    refreshedAccess1.claims.exp ≠ refreshedAccess2.claims.exp :=
  refresh_does_not_rotate [sampleSession] [{ sampleSession with last_used := 1 }]
    [{ sampleSession with last_used := 4 }] [sampleUser] "s" 0 1 2 3 4 5
    true true sampleRefresh refreshedAccess1 sampleRefresh refreshedAccess2
    sampleRefresh rfl rfl (by decide)

/-- C8 counterexample: not every issued token embeds a subject and
`issued_at`/`not_before` claims.  The refresh token minted by a concrete
`create_session_tokens` call has no `sub`, no `iat` and no `nbf` claim (its
payload dict contains only `user_id`, `exp`, `type` and `invalidate_id`). -/
theorem refresh_token_lacks_subject_and_time_claims :
    resultRefreshClaims (create_session_tokens [] "u1" "a@x.com" "s" "i1" "j1"
        0 0 0 0 0 0 "203.0.113.5" "ua" true)
      = some sampleRefresh.claims ∧
    sampleRefresh.claims.sub = none ∧
    sampleRefresh.claims.iat = none ∧
    sampleRefresh.claims.nbf = none :=
  ⟨rfl, rfl, rfl, rfl⟩

/-- C8 amended: every issued token embeds a kind, `user_id`,
`invalidation_id` and `expires_at`; the creation-time access token
additionally embeds the subject, `issued_at` and `not_before`; the refresh
token carries no subject, `issued_at` or `not_before`; the refresh-route
access token carries a subject but no `issued_at` or `not_before`.  The
access-token expiry is its base reading plus 1 hour, the refresh-token
expiry its base reading plus 30 days, and the session record's `expires_at`
equals the refresh token's expiry. -/
theorem issued_token_claim_sets
    (sessions s2 sessions3 s3 : List SessionRecord) (users : List UserDoc)
    (user_id email secret iid jti ip ua : String)
    (t0 t1 t2 t3 t4 t5 : Int) (insertOk : Bool) (a r : JwtToken)
    (nd nt tE : Int) (tOk : Bool) (rtok a2 r2 : JwtToken)
    (h : create_session_tokens sessions user_id email secret iid jti
        t0 t1 t2 t3 t4 t5 ip ua insertOk = .ok (a, r, s2))
    (h2 : refresh_token sessions3 users secret nd nt tE tOk (some rtok)
        = .ok (a2, r2, s3)) :
    a.claims.typ = "access" ∧ a.claims.sub = some email ∧
    a.claims.user_id = user_id ∧ a.claims.invalidate_id = iid ∧
    (a.claims.iat).isSome = true ∧ (a.claims.nbf).isSome = true ∧
    a.claims.exp = t0 + 3600 ∧
    r.claims.typ = "refresh" ∧ r.claims.sub = none ∧
    r.claims.user_id = user_id ∧ r.claims.invalidate_id = iid ∧
    r.claims.iat = none ∧ r.claims.nbf = none ∧
    r.claims.exp = t3 + 2592000 ∧
    (s2.getLast?).map SessionRecord.expires_at = some r.claims.exp ∧
    a2.claims.typ = "access" ∧ (a2.claims.sub).isSome = true ∧
    a2.claims.invalidate_id = rtok.claims.invalidate_id ∧
    a2.claims.iat = none ∧ a2.claims.nbf = none ∧
    a2.claims.exp = tE + 3600 := by
  obtain ⟨hA, hR, hS⟩ := create_session_tokens_ok_inv sessions s2 user_id email
    secret iid jti t0 t1 t2 t3 t4 t5 ip ua insertOk a r h
  obtain ⟨-, hid2, hexp2, hty2, hiat2, hnbf2, hsub2⟩ :=
    refresh_token_ok_inv sessions3 s3 users secret nd nt tE tOk rtok a2 r2 h2
  subst hA
  subst hR
  subst hS
  refine ⟨rfl, rfl, rfl, rfl, rfl, rfl, rfl, rfl, rfl, rfl, rfl, rfl, rfl, rfl,
    ?_, hty2, hsub2, hid2, hiat2, hnbf2, hexp2⟩
  rw [getLast?_append_singleton]
  rfl

/-- Witness for the amended C8 on the concrete sample creation and refresh
runs. -/
theorem issued_token_claim_sets_witness :
    sampleAccess.claims.typ = "access" ∧
    sampleAccess.claims.sub = some "a@x.com" ∧
    sampleAccess.claims.user_id = "u1" ∧
    sampleAccess.claims.invalidate_id = "i1" ∧
    (sampleAccess.claims.iat).isSome = true ∧
    (sampleAccess.claims.nbf).isSome = true ∧
    sampleAccess.claims.exp = 0 + 3600 ∧
    sampleRefresh.claims.typ = "refresh" ∧
    sampleRefresh.claims.sub = none ∧
    sampleRefresh.claims.user_id = "u1" ∧
    sampleRefresh.claims.invalidate_id = "i1" ∧
    sampleRefresh.claims.iat = none ∧
    sampleRefresh.claims.nbf = none ∧
    sampleRefresh.claims.exp = 0 + 2592000 ∧
    (([sampleSession] : List SessionRecord).getLast?).map SessionRecord.expires_at
      = some sampleRefresh.claims.exp ∧
    refreshedAccess1.claims.typ = "access" ∧
    (refreshedAccess1.claims.sub).isSome = true ∧
    refreshedAccess1.claims.invalidate_id = sampleRefresh.claims.invalidate_id ∧
    refreshedAccess1.claims.iat = none ∧
    refreshedAccess1.claims.nbf = none ∧
    refreshedAccess1.claims.exp = 2 + 3600 :=
  issued_token_claim_sets [] [sampleSession] [sampleSession]
    [{ sampleSession with last_used := 1 }] [sampleUser] "u1" "a@x.com" "s"
    "i1" "j1" "203.0.113.5" "ua" 0 0 0 0 0 0 true sampleAccess sampleRefresh
    0 1 2 true sampleRefresh refreshedAccess1 sampleRefresh rfl rfl

/-- C9 counterexample: the timestamps within a single
`create_session_tokens` call do not come from one clock reading captured
once.  In an execution where the six successive `datetime.utcnow()` readings
are 10, 11, 12, 13, 14, 15, the minted access token's `iat` is 11 while its
`nbf` is 12, the session record's `created_at` is 14 while `last_used` is
15, and the access expiry is based on reading 10 while the refresh expiry is
based on reading 13 — so the claimed coincidences fail. -/
theorem separate_clock_readings_drift :
    resultAccessClaims (create_session_tokens [] "u1" "a@x.com" "s" "i1" "j1"
        10 11 12 13 14 15 "203.0.113.5" "ua" true)
      = some { user_id := "u1", sub := some "a@x.com", exp := 3610,
               typ := "access", invalidate_id := "i1", jti := some "j1",
               iat := some 11, nbf := some 12 } ∧
    resultSessions (create_session_tokens [] "u1" "a@x.com" "s" "i1" "j1"
        10 11 12 13 14 15 "203.0.113.5" "ua" true)
      = some [{ invalidate_id := "i1", user_id := "u1", created_at := 14,
                expires_at := 2592013, last_used := 15, is_active := true,
                ip_address := "203.0.113.5", client_info := "ua" }] ∧
    (some 11 : Option Int) ≠ some 12 ∧
    (14 : Int) ≠ 15 ∧
    (3610 : Int) - 3600 ≠ 2592013 - 2592000 :=
  ⟨rfl, rfl, by decide, by decide, by decide⟩

/-- C9 amended: each embedded timestamp of `create_session_tokens` comes
from its own `datetime.utcnow()` reading taken at its use site, in reading
order: the access expiry is the first reading plus 1 hour, `iat` is the
second reading, `nbf` the third, the refresh expiry (and the record's
`expires_at`) the fourth reading plus 30 days, `created_at` the fifth and
`last_used` the sixth; the timestamps coincide only when the clock does not
advance between readings. -/
theorem timestamps_follow_their_own_reading
    (sessions s2 : List SessionRecord)
    (user_id email secret iid jti ip ua : String)
    (t0 t1 t2 t3 t4 t5 : Int) (insertOk : Bool) (a r : JwtToken)
    (h : create_session_tokens sessions user_id email secret iid jti
        t0 t1 t2 t3 t4 t5 ip ua insertOk = .ok (a, r, s2)) :
    a.claims.exp = t0 + 3600 ∧ a.claims.iat = some t1 ∧
    a.claims.nbf = some t2 ∧ r.claims.exp = t3 + 2592000 ∧
    (s2.getLast?).map SessionRecord.created_at = some t4 ∧
    (s2.getLast?).map SessionRecord.last_used = some t5 := by
  obtain ⟨hA, hR, hS⟩ := create_session_tokens_ok_inv sessions s2 user_id email
    secret iid jti t0 t1 t2 t3 t4 t5 ip ua insertOk a r h
  subst hA
  subst hR
  subst hS
  refine ⟨rfl, rfl, rfl, rfl, ?_, ?_⟩ <;>
    rw [getLast?_append_singleton] <;> rfl

/-- Witness for the amended C9 at the drifting clock 10, 11, 12, 13, 14, 15. -/
theorem timestamps_follow_their_own_reading_witness :
    (⟨{ user_id := "u1", sub := some "a@x.com", exp := 3610, typ := "access",
        invalidate_id := "i1", jti := some "j1", iat := some 11,
        nbf := some 12 }, "s"⟩ : JwtToken).claims.exp = 10 + 3600 ∧
    (⟨{ user_id := "u1", sub := some "a@x.com", exp := 3610, typ := "access",
        invalidate_id := "i1", jti := some "j1", iat := some 11,
        nbf := some 12 }, "s"⟩ : JwtToken).claims.iat = some 11 ∧
    (⟨{ user_id := "u1", sub := some "a@x.com", exp := 3610, typ := "access",
        invalidate_id := "i1", jti := some "j1", iat := some 11,
        nbf := some 12 }, "s"⟩ : JwtToken).claims.nbf = some 12 ∧
    (⟨{ user_id := "u1", sub := none, exp := 2592013, typ := "refresh",
        invalidate_id := "i1", jti := none, iat := none,
        nbf := none }, "s"⟩ : JwtToken).claims.exp = 13 + 2592000 ∧
    (([{ invalidate_id := "i1", user_id := "u1", created_at := 14,
         expires_at := 2592013, last_used := 15, is_active := true,
         ip_address := "203.0.113.5",
         client_info := "ua" }] : List SessionRecord).getLast?).map
        SessionRecord.created_at = some 14 ∧
    (([{ invalidate_id := "i1", user_id := "u1", created_at := 14,
         expires_at := 2592013, last_used := 15, is_active := true,
         ip_address := "203.0.113.5",
         client_info := "ua" }] : List SessionRecord).getLast?).map
        SessionRecord.last_used = some 15 :=
  timestamps_follow_their_own_reading [] _ "u1" "a@x.com" "s" "i1" "j1"
    "203.0.113.5" "ua" 10 11 12 13 14 15 true _ _ rfl

/-- C10: the session record inserted by a successful
`create_session_tokens` call is bound to the returned tokens by
construction: exactly one record is appended; its `invalidate_id` equals the
`invalidate_id` claim of both returned tokens; `is_active` is true; its
`expires_at` equals the refresh token's expiry claim, and is strictly later
than `created_at` whenever the call takes less than 30 days between its
fourth and fifth clock readings. -/
theorem session_record_token_binding
    (sessions s2 : List SessionRecord)
    (user_id email secret iid jti ip ua : String)
    (t0 t1 t2 t3 t4 t5 : Int) (insertOk : Bool) (a r : JwtToken)
    (h : create_session_tokens sessions user_id email secret iid jti
        t0 t1 t2 t3 t4 t5 ip ua insertOk = .ok (a, r, s2))
    (hdur : t4 < t3 + 2592000) :
    s2.length = sessions.length + 1 ∧
    (s2.getLast?).map SessionRecord.invalidate_id = some a.claims.invalidate_id ∧
    (s2.getLast?).map SessionRecord.invalidate_id = some r.claims.invalidate_id ∧
    (s2.getLast?).map SessionRecord.is_active = some true ∧
    (s2.getLast?).map SessionRecord.expires_at = some r.claims.exp ∧
    (s2.getLast?).map (fun rec => decide (rec.created_at < rec.expires_at))
      = some true := by
  obtain ⟨hA, hR, hS⟩ := create_session_tokens_ok_inv sessions s2 user_id email
    secret iid jti t0 t1 t2 t3 t4 t5 ip ua insertOk a r h
  subst hA
  subst hR
  subst hS
  simp [getLast?_append_singleton, hdur]

/-- Witness for C10 at the concrete sample creation run. -/
theorem session_record_token_binding_witness :
    ([sampleSession] : List SessionRecord).length
        = ([] : List SessionRecord).length + 1 ∧
    (([sampleSession] : List SessionRecord).getLast?).map
        SessionRecord.invalidate_id = some sampleAccess.claims.invalidate_id ∧
    (([sampleSession] : List SessionRecord).getLast?).map
        SessionRecord.invalidate_id = some sampleRefresh.claims.invalidate_id ∧
    (([sampleSession] : List SessionRecord).getLast?).map
        SessionRecord.is_active = some true ∧
    (([sampleSession] : List SessionRecord).getLast?).map
        SessionRecord.expires_at = some sampleRefresh.claims.exp ∧
    (([sampleSession] : List SessionRecord).getLast?).map
        (fun rec => decide (rec.created_at < rec.expires_at)) = some true :=
  session_record_token_binding [] [sampleSession] "u1" "a@x.com" "s" "i1" "j1"
    "203.0.113.5" "ua" 0 0 0 0 0 0 true sampleAccess sampleRefresh rfl
    (by decide)
